import Mathlib

/-!
# Verification of the realtime voice-conversation core

Shallow embedding of the realtime subsystem of the `mind_apis` backend:

* `AudioProcessor`   (RMS / silence classification)      — src/realtime/audioProcessor.js
* `StateManager`     (per-connection conversation state) — src/realtime/stateManager.js
* `ElevenLabsStreamingClient` (streaming TTS adapter)    — src/realtime/elevenLabsStreamingClient.js
* `OpenAIRealtimeClient.createSession` (model session)   — src/realtime/openaiRealtimeClient.js
* `RealtimeServer` (`handleAudioChunk`, `handleConnection`, `cleanupConnection`)
                                                         — src/realtime/realtimeServer.js

Conventions of the embedding:

* Buffers are `List Nat` of byte values (reduced mod 256 where the source
  reads them as bytes); timestamps (`Date.now()`) are explicit `Nat`
  parameters named `now`.
* The JavaScript `Map` backing the `StateManager` singleton is an
  association list `Store` with `getState` / `mapSet` / `mapDelete`
  mirroring `Map.get` / `Map.set` / `Map.delete`.
* `Math.sqrt` in `calculateRMS` is the only non-rational operation in the
  subsystem.  Since `Real.sqrt` is strictly monotone on nonnegative inputs
  and fixes `0`, the development carries the mean square (`volumeSq`) and
  squares every constant the source compares a volume against
  (`0.005 → 1/40000`, heuristic volume `0.1 → 1/100`).  Zero-ness and all
  `<` comparisons against positive thresholds are preserved exactly by
  this transform.
* Throwing / rejecting JavaScript code is embedded with explicit error
  results; side effects towards the two remote services and the client
  socket are collected as explicit output-event lists.
-/

/-! ## AudioProcessor (src/realtime/audioProcessor.js) -/

/-- Errors of the pointwise buffer reads.  `outOfRange` is Node's
`ERR_OUT_OF_RANGE` thrown by `Buffer.readInt16LE(i)` when fewer than two
bytes remain at offset `i`. -/
inductive RMSError where
  | outOfRange
deriving DecidableEq

/-- `audioBuffer.readInt16LE(i)`: little-endian signed 16-bit read of two
consecutive bytes. -/
def toInt16 (lo hi : Nat) : Int :=
  let v := lo % 256 + 256 * (hi % 256)
  if 32768 ≤ v then (v : Int) - 65536 else (v : Int)

/-- The read loop of `calculateRMS` (`for (let i = 0; i < audioBuffer.length;
i += 2) ... readInt16LE(i)`): reads the buffer two bytes at a time.  On an
odd-length buffer the final `readInt16LE` has only one byte left and throws
`ERR_OUT_OF_RANGE`. -/
def pcm16Samples : List Nat → Except RMSError (List Int)
  | [] => .ok []
  | [_] => .error .outOfRange
  | lo :: hi :: rest =>
    match pcm16Samples rest with
    | .error e => .error e
    | .ok ss => .ok (toInt16 lo hi :: ss)

/-- `AudioProcessor.calculateRMS`.  Returns `0` for a null/empty buffer;
otherwise sums the squares of the samples normalized by `32768` and divides
by the sample count `audioBuffer.length / 2`.  The source finally applies
`Math.sqrt`; per the squared-scale convention this embedding returns the
mean square (see the header comment). -/
def calculateRMS (audioBuffer : List Nat) : Except RMSError ℚ :=
  if audioBuffer.length = 0 then .ok 0
  else
    match pcm16Samples audioBuffer with
    | .error e => .error e
    | .ok samples =>
      .ok (((samples.map fun s => ((s : ℚ) / 32768) ^ 2).sum) / ((audioBuffer.length : ℚ) / 2))

/-- Result record of `AudioProcessor.processAudioChunk`.  `volumeSq` and
`thresholdSq` are the squares of the source's `volume` and `threshold`
fields (squared-scale convention). -/
structure AudioInfo where
  isSilent : Bool
  volumeSq : ℚ
  thresholdSq : ℚ
deriving DecidableEq

/-- The `catch` branch of `processAudioChunk`: when the RMS computation
throws, count the non-zero bytes among the first `min(length, 100)` bytes
and classify as active when more than 10 are non-zero, reporting an
approximate volume of `0.1` (squared: `1/100`). -/
def byteActivityFallback (audioChunk : List Nat) (silenceThresholdSq : ℚ) : AudioInfo :=
  let nonZeroCount := ((audioChunk.take 100).filter (fun b => b % 256 != 0)).length
  let hasActivity := nonZeroCount > 10
  { isSilent := !hasActivity
    volumeSq := if hasActivity then 1 / 100 else 0
    thresholdSq := silenceThresholdSq }

/-- `AudioProcessor.processAudioChunk(audioChunk, silenceThreshold)`:
empty chunk is silent with volume `0`; otherwise try `calculateRMS` and
compare against the threshold; if the RMS computation throws, fall back to
the byte-activity heuristic.  Total: never propagates an error. -/
def processAudioChunk (audioChunk : List Nat) (silenceThresholdSq : ℚ) : AudioInfo :=
  if audioChunk.length = 0 then
    { isSilent := true, volumeSq := 0, thresholdSq := silenceThresholdSq }
  else
    match calculateRMS audioChunk with
    | .ok rmsSq =>
      { isSilent := decide (rmsSq < silenceThresholdSq)
        volumeSq := rmsSq
        thresholdSq := silenceThresholdSq }
    | .error _ => byteActivityFallback audioChunk silenceThresholdSq

/-! ## StateManager (src/realtime/stateManager.js) -/

/-- The per-connection state record created by `StateManager.initialize`.
Abort controllers are modelled as opaque handles (`Option Nat`); `null`
fields are `none`.  The dynamic properties the server later grafts onto the
record (`_eventHandlers`, `_elevenLabsChunkHandler`,
`_restoreInstructionsAfterGreeting`, `_originalInstructions`) hold only
callback/handler references and greeting bookkeeping; no claim touches
them, so they are not part of the record. -/
structure ConnState where
  connectionId : String
  consultantId : Nat
  userId : Nat
  isUserSpeaking : Bool
  isAISpeaking : Bool
  lastUserAudioTime : Option Nat
  lastAIAudioTime : Option Nat
  silenceStartTime : Option Nat
  isProcessing : Bool
  openaiSessionId : Option String
  elevenlabsAbortController : Option Nat
  openaiAbortController : Option Nat
  audioBuffer : List (List Nat)
  textBuffer : String
  createdAt : Nat
deriving DecidableEq

/-- The `this.connections` JavaScript `Map`, as an association list. -/
def Store : Type := List (String × ConnState)

instance : DecidableEq Store := by unfold Store; infer_instance

/-- `Map.get` (`StateManager.getState`): `this.connections.get(id) || null`. -/
def getState : Store → String → Option ConnState
  | [], _ => none
  | (k, v) :: rest, id => if k = id then some v else getState rest id

/-- `Map.set`: replace the entry for the key, or insert it. -/
def mapSet : Store → String → ConnState → Store
  | [], id, v => [(id, v)]
  | (k, w) :: rest, id, v => if k = id then (id, v) :: rest else (k, w) :: mapSet rest id v

/-- `Map.delete`: remove the entry for the key (keys are unique in a `Map`). -/
def mapDelete : Store → String → Store
  | [], _ => []
  | (k, w) :: rest, id => if k = id then rest else (k, w) :: mapDelete rest id

/-- Common pattern of every `StateManager` mutator: fetch the state, return
unchanged when `getState` is `null`, otherwise mutate the entry. -/
def updateEntry (s : Store) (id : String) (f : ConnState → ConnState) : Store :=
  match getState s id with
  | none => s
  | some st => mapSet s id (f st)

/-- The fresh record `StateManager.initialize` stores (`createdAt: Date.now()`). -/
def freshConnState (connectionId : String) (consultantId userId now : Nat) : ConnState :=
  { connectionId := connectionId
    consultantId := consultantId
    userId := userId
    isUserSpeaking := false
    isAISpeaking := false
    lastUserAudioTime := none
    lastAIAudioTime := none
    silenceStartTime := none
    isProcessing := false
    openaiSessionId := none
    elevenlabsAbortController := none
    openaiAbortController := none
    audioBuffer := []
    textBuffer := ""
    createdAt := now }

/-- `StateManager.initialize(connectionId, consultantId, userId)`:
unconditionally `this.connections.set(connectionId, {...})` — no check for
an existing entry. -/
def initState (s : Store) (connectionId : String) (consultantId userId now : Nat) : Store :=
  mapSet s connectionId (freshConnState connectionId consultantId userId now)

/-- `StateManager.setUserSpeaking(connectionId, isSpeaking)`.  Sets
`isUserSpeaking`; when speaking, sets `lastUserAudioTime = now` and clears
`silenceStartTime`; when not speaking, sets `silenceStartTime = now`
(unconditionally — the source assigns in the `else` branch regardless of
`wasSpeaking`, which is only consulted for logging). -/
def setUserSpeaking (s : Store) (id : String) (isSpeaking : Bool) (now : Nat) : Store :=
  updateEntry s id fun st =>
    if isSpeaking then
      { st with isUserSpeaking := true, lastUserAudioTime := some now, silenceStartTime := none }
    else
      { st with isUserSpeaking := false, silenceStartTime := some now }

/-- `StateManager.setAISpeaking(connectionId, isSpeaking)`. -/
def setAISpeaking (s : Store) (id : String) (isSpeaking : Bool) (now : Nat) : Store :=
  updateEntry s id fun st =>
    if isSpeaking then
      { st with isAISpeaking := true, lastAIAudioTime := some now }
    else
      { st with isAISpeaking := false }

/-- `StateManager.shouldBargeIn(connectionId)`:
`state.isUserSpeaking && state.isAISpeaking`, `false` for a missing state. -/
def shouldBargeIn (s : Store) (id : String) : Bool :=
  match getState s id with
  | none => false
  | some st => st.isUserSpeaking && st.isAISpeaking

/-- `StateManager.setOpenAISessionId`. -/
def setOpenAISessionId (s : Store) (id : String) (sessionId : String) : Store :=
  updateEntry s id fun st => { st with openaiSessionId := some sessionId }

/-- `StateManager.setElevenLabsAbortController`. -/
def setElevenLabsAbortController (s : Store) (id : String) (controller : Nat) : Store :=
  updateEntry s id fun st => { st with elevenlabsAbortController := some controller }

/-- `StateManager.setOpenAIAbortController`. -/
def setOpenAIAbortController (s : Store) (id : String) (controller : Nat) : Store :=
  updateEntry s id fun st => { st with openaiAbortController := some controller }

/-- The `.abort()` side effects `StateManager.abortAIResponse` performs on
the live controllers, recorded as explicit actions. -/
inductive AbortAction where
  | abortElevenLabs
  | abortOpenAI
deriving DecidableEq

/-- `StateManager.abortAIResponse(connectionId)`: abort the ElevenLabs
controller if present and null it, abort the OpenAI controller if present
and null it, then set `isAISpeaking = false` and clear `textBuffer`.
Missing state: logged no-op. -/
def abortAIResponse (s : Store) (id : String) : Store × List AbortAction :=
  match getState s id with
  | none => (s, [])
  | some st =>
    let acts :=
      (if st.elevenlabsAbortController.isSome then [AbortAction.abortElevenLabs] else []) ++
      (if st.openaiAbortController.isSome then [AbortAction.abortOpenAI] else [])
    (mapSet s id
      { st with
        elevenlabsAbortController := none
        openaiAbortController := none
        isAISpeaking := false
        textBuffer := "" }, acts)

/-- The buffer update of `StateManager.addAudioChunk`: `push(chunk)`, then
`if (audioBuffer.length > 100) audioBuffer.shift()`. -/
def bufPush (buf : List (List Nat)) (chunk : List Nat) : List (List Nat) :=
  let buf' := buf ++ [chunk]
  if buf'.length > 100 then buf'.drop 1 else buf'

/-- `StateManager.addAudioChunk(connectionId, chunk)`. -/
def addAudioChunk (s : Store) (id : String) (chunk : List Nat) : Store :=
  updateEntry s id fun st => { st with audioBuffer := bufPush st.audioBuffer chunk }

/-- `StateManager.clearAudioBuffer(connectionId)`. -/
def clearAudioBuffer (s : Store) (id : String) : Store :=
  updateEntry s id fun st => { st with audioBuffer := [] }

/-- `StateManager.addText(connectionId, text)`: `textBuffer += text`. -/
def addText (s : Store) (id : String) (text : String) : Store :=
  updateEntry s id fun st => { st with textBuffer := st.textBuffer ++ text }

/-- `StateManager.clearTextBuffer(connectionId)`. -/
def clearTextBuffer (s : Store) (id : String) : Store :=
  updateEntry s id fun st => { st with textBuffer := "" }

/-- `StateManager.isSilenceDetected(connectionId, silenceThresholdMs)`:
`false` for a missing state or unset `silenceStartTime`; otherwise
`(now - silenceStartTime) >= silenceThresholdMs && !isUserSpeaking`. -/
def isSilenceDetected (s : Store) (id : String) (silenceThresholdMs now : Nat) : Bool :=
  match getState s id with
  | none => false
  | some st =>
    match st.silenceStartTime with
    | none => false
    | some t0 => decide (silenceThresholdMs ≤ now - t0) && !st.isUserSpeaking

/-- `StateManager.remove(connectionId)`: `abortAIResponse` when a state
exists, then `this.connections.delete(connectionId)`. -/
def removeConn (s : Store) (id : String) : Store × List AbortAction :=
  match getState s id with
  | none => (mapDelete s id, [])
  | some _ =>
    let p := abortAIResponse s id
    (mapDelete p.1 id, p.2)

/-! ## ElevenLabsStreamingClient (src/realtime/elevenLabsStreamingClient.js) -/

/-- Events `streamTextToSpeech` emits on the client's `EventEmitter`. -/
inductive TTSEvent where
  | audioChunk (chunk : List Nat)
  | streamEnd
  | streamAborted
  | errorEvent
deriving DecidableEq

/-- Errors `streamTextToSpeech` rejects with. -/
inductive TTSErr where
  | apiKeyMissing
  | voiceIdRequired
  | textRequired
  | requestFailed
deriving DecidableEq

/-- Whether the async call returned normally or rejected. -/
inductive TTSResult where
  | returned
  | threw (e : TTSErr)
deriving DecidableEq

/-- Fate of the response stream once `axios.post` has resolved.
`abortedDuring k` means the abort signal fires after `k` data events have
been handled: axios then destroys the stream, which surfaces as an
abort-flagged `error` event that ends delivery. -/
inductive StreamPhase where
  | completed
  | remoteError
  | abortedDuring (k : Nat)
deriving DecidableEq

/-- Outcome of the `await axios.post(...)` call itself.
`abortedBeforeResponse`: the abort signal fires before the response
arrives, so the awaited call rejects with `ERR_CANCELED`.  `httpError`: a
non-cancellation rejection (4xx/5xx, network failure). -/
inductive RequestOutcome where
  | response (chunks : List (List Nat)) (phase : StreamPhase)
  | abortedBeforeResponse
  | httpError
deriving DecidableEq

/-- Observable run of one `streamTextToSpeech` call: the events emitted on
the `EventEmitter`, whether the HTTP request was issued, and whether the
promise resolved or rejected. -/
structure TTSRun where
  events : List TTSEvent
  networkCalled : Bool
  result : TTSResult
deriving DecidableEq

/-- JavaScript `!text || text.trim() === ''` for a string: true iff every
character is whitespace (trim strips leading/trailing whitespace, so the
trimmed string is empty iff nothing non-whitespace remains). -/
def isBlank (text : String) : Bool :=
  text.toList.all fun c => c.isWhitespace

/-- `ElevenLabsStreamingClient.streamTextToSpeech(text, voiceId,
abortController)`.  Validation order as in the source: missing API key,
missing `voiceId`, empty/whitespace `text` — each rejects before the
network call.  Otherwise the request is issued and:

* the awaited call rejecting with `ERR_CANCELED` is caught, emits
  `stream_aborted` and returns normally (lines 112-117);
* any other rejection is re-thrown (line 121);
* once the response stream is live, each `data` event emits `audio_chunk`
  unless the abort signal is already set (lines 79-95); `end` emits
  `stream_end`; a stream `error` emits `error` only when not aborted
  (lines 102-109).  An abort during the stream therefore stops chunk
  emission at the next chunk boundary and suppresses the resulting stream
  error, emitting no terminal event at all. -/
def streamTextToSpeech (apiKeyConfigured : Bool) (text voiceId : String)
    (outcome : RequestOutcome) : TTSRun :=
  if !apiKeyConfigured then
    { events := [], networkCalled := false, result := .threw .apiKeyMissing }
  else if voiceId = "" then
    { events := [], networkCalled := false, result := .threw .voiceIdRequired }
  else if isBlank text then
    { events := [], networkCalled := false, result := .threw .textRequired }
  else
    match outcome with
    | .abortedBeforeResponse =>
      { events := [TTSEvent.streamAborted], networkCalled := true, result := .returned }
    | .httpError =>
      { events := [], networkCalled := true, result := .threw .requestFailed }
    | .response chunks phase =>
      match phase with
      | .completed =>
        { events := chunks.map TTSEvent.audioChunk ++ [TTSEvent.streamEnd]
          networkCalled := true, result := .returned }
      | .remoteError =>
        { events := chunks.map TTSEvent.audioChunk ++ [TTSEvent.errorEvent]
          networkCalled := true, result := .returned }
      | .abortedDuring k =>
        { events := (chunks.take k).map TTSEvent.audioChunk
          networkCalled := true, result := .returned }

/-- `ElevenLabsStreamingClient.streamTextDelta(textDelta, voiceId,
abortController)`: returns immediately (skip) on empty/whitespace text,
otherwise delegates to `streamTextToSpeech`. -/
def streamTextDelta (apiKeyConfigured : Bool) (textDelta voiceId : String)
    (outcome : RequestOutcome) : TTSRun :=
  if isBlank textDelta then
    { events := [], networkCalled := false, result := .returned }
  else
    streamTextToSpeech apiKeyConfigured textDelta voiceId outcome

/-! ## OpenAIRealtimeClient.createSession (src/realtime/openaiRealtimeClient.js) -/

/-- Fate of the WebSocket transport during `createSession`'s awaited
connection promise. -/
inductive TransportOutcome where
  | opensBeforeTimeout
  | noOpenWithin10s
  | wsConnectionError
deriving DecidableEq

/-- Errors `createSession` rejects with.  `connectionTimeout` is the
`Error('Connection timeout')` rejected when the 10-second `setTimeout`
fires with the socket still not open. -/
inductive SessionError where
  | apiKeyMissing
  | connectionTimeout
  | wsConnectError
deriving DecidableEq

/-- `OpenAIRealtimeClient.createSession(options)`: rejects when the API key
is not configured; otherwise awaits the WebSocket open, rejecting with
`Connection timeout` after 10 s or with the transport error; on success it
sends the session configuration and returns the generated session id. -/
def createSession (apiKeyConfigured : Bool) (transport : TransportOutcome)
    (sessionId : String) : Except SessionError String :=
  if !apiKeyConfigured then .error .apiKeyMissing
  else
    match transport with
    | .opensBeforeTimeout => .ok sessionId
    | .noOpenWithin10s => .error .connectionTimeout
    | .wsConnectionError => .error .wsConnectError

/-! ## RealtimeServer (src/realtime/realtimeServer.js) -/

/-- `this.silenceThreshold = 0.005` — squared-scale convention:
`0.005 ^ 2 = 1 / 40000`. -/
def silenceThresholdSq : ℚ := 1 / 40000

/-- `this.silenceDurationMs = 1000`. -/
def silenceDurationMs : Nat := 1000

/-- Externally visible actions of one `handleAudioChunk` step: the abort
calls on the two cancellation handles, the `response.cancel` message to the
model session, the JSON messages to the client socket, the audio forwarded
to the model session, and the `input_audio_buffer.commit` signal. -/
inductive ServerOut where
  | abortElevenLabs
  | abortOpenAI
  | cancelModelResponse
  | bargeInMsg
  | audioToOpenAI (chunk : List Nat)
  | commitAudio
deriving DecidableEq

/-- Abort side effects of `abortAIResponse`, as server-level outputs. -/
def actionOut : AbortAction → ServerOut
  | .abortElevenLabs => .abortElevenLabs
  | .abortOpenAI => .abortOpenAI

/-- `RealtimeServer.handleAudioChunk(connectionId, audioChunk, ws,
openaiSession)`.  `sessionOpen` is
`openaiSession && openaiSession.readyState === WebSocket.OPEN`; `now` is
the processing instant (`Date.now()`).  Steps, in source order: no-op when
the state is missing; `addAudioChunk`; classify via `processAudioChunk`;
`setUserSpeaking(!isSilent)`; on `shouldBargeIn`, run `abortAIResponse`,
send `response.cancel` to the model session when open, and send the
`barge_in` message to the client; forward the chunk to the model session
when the user is speaking and the session is open; on `isSilenceDetected`,
signal `input_audio_buffer.commit` (when open) and clear the audio
buffer. -/
def handleAudioChunk (s : Store) (id : String) (audioChunk : List Nat)
    (sessionOpen : Bool) (now : Nat) : Store × List ServerOut :=
  match getState s id with
  | none => (s, [])
  | some _ =>
    let s1 := addAudioChunk s id audioChunk
    let audioInfo := processAudioChunk audioChunk silenceThresholdSq
    let userSpeaking := !audioInfo.isSilent
    let s2 := setUserSpeaking s1 id userSpeaking now
    let p3 : Store × List ServerOut :=
      if shouldBargeIn s2 id then
        let p := abortAIResponse s2 id
        (p.1, p.2.map actionOut ++
          (if sessionOpen then [ServerOut.cancelModelResponse] else []) ++
          [ServerOut.bargeInMsg])
      else (s2, [])
    let forwardOut : List ServerOut :=
      if userSpeaking && sessionOpen then [ServerOut.audioToOpenAI audioChunk] else []
    let p4 : Store × List ServerOut :=
      if isSilenceDetected p3.1 id silenceDurationMs now then
        (clearAudioBuffer p3.1 id,
          if sessionOpen then [ServerOut.commitAudio] else [])
      else (p3.1, [])
    (p4.1, p3.2 ++ forwardOut ++ p4.2)

/-- `RealtimeServer.cleanupConnection(connectionId, openaiSession)`'s
effects on the state store: the handler de-registrations and the
best-effort model-session close touch no store field; then
`abortAIResponse(connectionId)` and `StateManager.remove(connectionId)`
(each step's failure is caught so the sequence always completes). -/
def cleanupConnection (s : Store) (id : String) : Store × List AbortAction :=
  let p1 := abortAIResponse s id
  let p2 := removeConn p1.1 id
  (p2.1, p1.2 ++ p2.2)

/-- Result of `RealtimeServer.authenticateConnection`. -/
inductive AuthOutcome where
  | failure
  | success (userId consultantId : Nat)
deriving DecidableEq

/-- The consultant fields `handleConnection` consults. -/
structure ConsultantInfo where
  voiceId : Option String
deriving DecidableEq

/-- Terminal outcome of one `handleConnection` run. -/
inductive ConnResult where
  | authRejected
  | consultantNotFound
  | voiceNotConfigured
  | setupComplete
  | setupFailed (e : SessionError)
deriving DecidableEq

/-- `connectionId = userId + consultantId + Date.now()` with underscores. -/
def mkConnectionId (userId consultantId now : Nat) : String :=
  toString userId ++ "_" ++ toString consultantId ++ "_" ++ toString now

/-- `RealtimeServer.handleConnection(ws, req)` up to the end of setup.
Auth failure, missing consultant and missing voice id each close the
socket before any state is created.  Otherwise
`StateManager.initialize` runs, then `createSession`; on success the
session id is stored and setup completes; a `createSession` rejection is
caught by the outer `catch`, which closes the socket and runs
`cleanupConnection(connectionId, null)` (removing the state entry). -/
def handleConnection (s : Store) (apiKeyConfigured : Bool) (auth : AuthOutcome)
    (consultant : Option ConsultantInfo) (transport : TransportOutcome)
    (sessionId : String) (now : Nat) : Store × ConnResult :=
  match auth with
  | .failure => (s, .authRejected)
  | .success userId consultantId =>
    let connectionId := mkConnectionId userId consultantId now
    match consultant with
    | none => (s, .consultantNotFound)
    | some c =>
      match c.voiceId with
      | none => (s, .voiceNotConfigured)
      | some _ =>
        let s1 := initState s connectionId consultantId userId now
        match createSession apiKeyConfigured transport sessionId with
        | .ok sid => (setOpenAISessionId s1 connectionId sid, .setupComplete)
        | .error e => ((cleanupConnection s1 connectionId).1, .setupFailed e)

/-- Iterated `StateManager.addAudioChunk`: one insertion per frame of
`chunks`, in order. -/
def insertChunks (s : Store) (id : String) (chunks : List (List Nat)) : Store :=
  chunks.foldl (fun acc c => addAudioChunk acc id c) s

/-! ## Concrete fixtures used by witnesses and counterexamples -/

/-- A store whose only connection is not speaking and has a recorded
silence start instant of `5`. -/
def c2ExampleStore : Store :=
  [("c", { freshConnState "c" 1 2 0 with silenceStartTime := some 5 })]

/-- A connection state mid-agent-response: the agent is speaking, both
cancellation handles are live, and text is pending. -/
def c1ExampleState : ConnState :=
  { freshConnState "c" 1 2 0 with
      isAISpeaking := true
      elevenlabsAbortController := some 10
      openaiAbortController := some 11
      textBuffer := "partial" }

def c1ExampleStore : Store := [("c", c1ExampleState)]

/-- One 16-bit little-endian sample `16384`; normalized square `1/4`, far
above the squared silence threshold `1/40000`. -/
def loudChunk : List Nat := [0, 64]

/-- 101 distinct one-byte frames, one more than the buffer capacity. -/
def numberedChunks : List (List Nat) := (List.range 101).map fun i => [i]

/-! ## Helper lemmas about the store -/

theorem getState_mapSet_self (s : Store) (id : String) (v : ConnState) :
    getState (mapSet s id v) id = some v := by
  induction s with
  | nil => simp [mapSet, getState]
  | cons hd tl ih =>
    obtain ⟨k, w⟩ := hd
    by_cases hk : k = id
    · simp [mapSet, hk, getState]
    · simp [mapSet, hk, getState, ih]

theorem updateEntry_of_get {s : Store} {id : String} {st : ConnState}
    (h : getState s id = some st) (f : ConnState → ConnState) :
    updateEntry s id f = mapSet s id (f st) := by
  simp [updateEntry, h]

theorem getState_updateEntry {s : Store} {id : String} {st : ConnState}
    (h : getState s id = some st) (f : ConnState → ConnState) :
    getState (updateEntry s id f) id = some (f st) := by
  rw [updateEntry_of_get h, getState_mapSet_self]

theorem updateEntry_of_none {s : Store} {id : String}
    (h : getState s id = none) (f : ConnState → ConnState) :
    updateEntry s id f = s := by
  simp [updateEntry, h]

theorem mapSet_mapSet (s : Store) (id : String) (v w : ConnState) :
    mapSet (mapSet s id v) id w = mapSet s id w := by
  induction s with
  | nil => simp [mapSet]
  | cons hd tl ih =>
    obtain ⟨k, u⟩ := hd
    by_cases hk : k = id
    · simp [mapSet, hk]
    · simp [mapSet, hk, ih]

theorem mapDelete_of_none {s : Store} {id : String}
    (h : getState s id = none) : mapDelete s id = s := by
  induction s with
  | nil => rfl
  | cons hd tl ih =>
    obtain ⟨k, w⟩ := hd
    by_cases hk : k = id
    · simp [getState, hk] at h
    · simp [getState, hk] at h
      simp [mapDelete, hk, ih h]

theorem mapDelete_mapSet_of_none {s : Store} {id : String}
    (h : getState s id = none) (v : ConnState) :
    mapDelete (mapSet s id v) id = s := by
  induction s with
  | nil => simp [mapSet, mapDelete]
  | cons hd tl ih =>
    obtain ⟨k, w⟩ := hd
    by_cases hk : k = id
    · simp [getState, hk] at h
    · simp [getState, hk] at h
      simp [mapSet, mapDelete, hk, ih h]

/-! ## Helper lemmas about the audio processor -/

/-- Two-step list induction, matching the stride-2 read loop of
`calculateRMS`. -/
theorem twoStepInd {motive : List Nat → Prop} (h0 : motive [])
    (h1 : ∀ a, motive [a])
    (h2 : ∀ a b l, motive l → motive (a :: b :: l)) :
    ∀ l, motive l
  | [] => h0
  | [a] => h1 a
  | a :: b :: l => h2 a b l (twoStepInd h0 h1 h2 l)

theorem pcm16Samples_odd :
    ∀ b : List Nat, b.length % 2 = 1 →
      pcm16Samples b = Except.error RMSError.outOfRange := by
  apply twoStepInd
  · intro h
    simp at h
  · intro a _
    rfl
  · intro a c l ih h
    have hl : l.length % 2 = 1 := by
      simp only [List.length_cons] at h
      omega
    simp [pcm16Samples, ih hl]

theorem calculateRMS_odd {b : List Nat} (h : b.length % 2 = 1) :
    calculateRMS b = Except.error RMSError.outOfRange := by
  have h0 : ¬ b.length = 0 := by omega
  simp [calculateRMS, h0, pcm16Samples_odd b h]

theorem processAudioChunk_odd {b : List Nat} (h : b.length % 2 = 1) (thr : ℚ) :
    processAudioChunk b thr = byteActivityFallback b thr := by
  have h0 : ¬ b.length = 0 := by omega
  simp [processAudioChunk, h0, calculateRMS_odd h]

/-! ## Helper lemmas about the bounded audio buffer -/

theorem foldl_bufPush_drop :
    ∀ (L : List (List Nat)) (b : List (List Nat)), b.length ≤ 100 →
      List.foldl bufPush b L = (b ++ L).drop (b.length + L.length - 100) := by
  intro L
  induction L with
  | nil =>
    intro b hb
    simp [Nat.sub_eq_zero_of_le hb]
  | cons c L ih =>
    intro b hb
    simp only [List.foldl_cons]
    by_cases h100 : b.length + 1 > 100
    · have hb100 : b.length = 100 := by omega
      have hstep : bufPush b c = (b ++ [c]).drop 1 := by
        simp [bufPush, h100]
      have hlen : ((b ++ [c]).drop 1).length = 100 := by
        simp [hb100]
      rw [hstep, ih _ (le_of_eq hlen), hlen]
      have e1 : (b ++ [c]).drop 1 ++ L = (b ++ c :: L).drop 1 := by
        rw [List.drop_append_eq_append_drop, List.drop_append_eq_append_drop]
        simp [hb100, List.append_assoc]
      rw [e1, List.drop_drop]
      congr 1
      simp only [List.length_cons]
      omega
    · have hstep : bufPush b c = b ++ [c] := by
        simp [bufPush, h100]
      have hlen : (b ++ [c]).length ≤ 100 := by
        simp only [List.length_append, List.length_cons, List.length_nil]
        omega
      rw [hstep, ih _ hlen, ← List.append_cons]
      congr 1
      simp only [List.length_append, List.length_cons, List.length_nil]
      omega

theorem getState_insertChunks {s : Store} {id : String} {st : ConnState}
    (h : getState s id = some st) (chunks : List (List Nat)) :
    getState (insertChunks s id chunks) id =
      some { st with audioBuffer := List.foldl bufPush st.audioBuffer chunks } := by
  induction chunks generalizing s st with
  | nil =>
    simp only [insertChunks, List.foldl_nil]
    exact h
  | cons c cs ih =>
    have h1 : getState (addAudioChunk s id c) id =
        some { st with audioBuffer := bufPush st.audioBuffer c } :=
      getState_updateEntry h _
    have := ih h1
    simpa [insertChunks, List.foldl_cons] using this

/-! ## Claim theorems -/

/-- Claim C7, counterexample.  A store already holds an entry for `"c"`
(with `isUserSpeaking = true`); a second `initialize` for the same id does
not fail — it silently replaces the entry with a freshly initialized one
(`createdAt = 9`, `isUserSpeaking = false`), so the pre-existing entry is
lost. -/
theorem initState_replaces_counterexample :
    getState (setUserSpeaking (initState [] "c" 1 2 0) "c" true 5) "c" ≠ none ∧
    getState (initState (setUserSpeaking (initState [] "c" 1 2 0) "c" true 5) "c" 1 2 9) "c"
      = some (freshConnState "c" 1 2 9) ∧
    getState (initState (setUserSpeaking (initState [] "c" 1 2 0) "c" true 5) "c" 1 2 9) "c"
      ≠ getState (setUserSpeaking (initState [] "c" 1 2 0) "c" true 5) "c" := by
  decide

/-- Claim C7, amended: `StateManager.initialize` never fails; for every
store — whether or not an entry for `connectionId` already exists — it
(re)binds the id to a freshly initialized state, silently replacing any
existing entry. -/
theorem initState_overwrites (s : Store) (id : String) (consultantId userId now : Nat) :
    getState (initState s id consultantId userId now) id
      = some (freshConnState id consultantId userId now) := by
  simp [initState, getState_mapSet_self]

/-- Claim C10, confirmed: for a `connectionId` with no store entry, every
`StateManager` operation is total and neutral — `getState` returns `null`,
the boolean queries return `false`, and every mutating operation (including
`remove`) leaves the store unchanged and performs no abort. -/
theorem stateOps_total_on_absent (s : Store) (id : String) (b : Bool)
    (now thrMs ctrl : Nat) (chunk : List Nat) (text sid : String)
    (h : getState s id = none) :
    getState s id = none ∧
    setUserSpeaking s id b now = s ∧
    setAISpeaking s id b now = s ∧
    shouldBargeIn s id = false ∧
    isSilenceDetected s id thrMs now = false ∧
    abortAIResponse s id = (s, []) ∧
    setOpenAISessionId s id sid = s ∧
    setElevenLabsAbortController s id ctrl = s ∧
    setOpenAIAbortController s id ctrl = s ∧
    addAudioChunk s id chunk = s ∧
    clearAudioBuffer s id = s ∧
    addText s id text = s ∧
    clearTextBuffer s id = s ∧
    removeConn s id = (s, []) := by
  refine ⟨h, ?_, ?_, ?_, ?_, ?_, ?_, ?_, ?_, ?_, ?_, ?_, ?_, ?_⟩ <;>
    simp [setUserSpeaking, setAISpeaking, shouldBargeIn, isSilenceDetected,
      abortAIResponse, setOpenAISessionId, setElevenLabsAbortController,
      setOpenAIAbortController, addAudioChunk, clearAudioBuffer, addText,
      clearTextBuffer, removeConn, updateEntry, h, mapDelete_of_none h]

/-- Witness for C10 at a concrete input. -/
theorem stateOps_total_on_absent_witness :
    getState ([] : Store) "gone" = none ∧
    setUserSpeaking [] "gone" true 3 = [] ∧
    setAISpeaking [] "gone" true 3 = [] ∧
    shouldBargeIn [] "gone" = false ∧
    isSilenceDetected [] "gone" 1000 3 = false ∧
    abortAIResponse [] "gone" = ([], []) ∧
    setOpenAISessionId [] "gone" "sid" = [] ∧
    setElevenLabsAbortController [] "gone" 7 = [] ∧
    setOpenAIAbortController [] "gone" 7 = [] ∧
    addAudioChunk [] "gone" [1, 2] = [] ∧
    clearAudioBuffer [] "gone" = [] ∧
    addText [] "gone" "hi" = [] ∧
    clearTextBuffer [] "gone" = [] ∧
    removeConn [] "gone" = ([], []) :=
  stateOps_total_on_absent [] "gone" true 3 1000 7 [1, 2] "hi" "sid" rfl

/-- Claim C2, counterexample.  The entry for `"c"` is already not speaking
(`isUserSpeaking = false`) and has `silenceStartTime = 5`; a further
`setUserSpeaking(.., false)` at time `7` does not leave `silenceStartTime`
unchanged — it restamps it to `7`. -/
theorem setUserSpeaking_restamp_counterexample :
    (getState c2ExampleStore "c").map ConnState.isUserSpeaking = some false ∧
    (getState c2ExampleStore "c").map ConnState.silenceStartTime = some (some 5) ∧
    (getState (setUserSpeaking c2ExampleStore "c" false 7) "c").map
        ConnState.silenceStartTime = some (some 7) ∧
    (getState (setUserSpeaking c2ExampleStore "c" false 7) "c").map
        ConnState.silenceStartTime
      ≠ (getState c2ExampleStore "c").map ConnState.silenceStartTime := by
  decide

/-- Claim C2, amended: whenever an entry exists,
`setUserSpeaking(connectionId, false)` sets `silenceStartTime` to the
current time *unconditionally* — also when the user was already not
speaking — so `silenceStartTime` can be non-null without any preceding
speech.  (`lastUserAudioTime` and the agent flag are untouched.) -/
theorem setUserSpeaking_notSpeaking_restamps (s : Store) (id : String) (st : ConnState)
    (now : Nat) (h : getState s id = some st) :
    ∃ st', getState (setUserSpeaking s id false now) id = some st' ∧
      st'.isUserSpeaking = false ∧ st'.silenceStartTime = some now ∧
      st'.lastUserAudioTime = st.lastUserAudioTime ∧
      st'.isAISpeaking = st.isAISpeaking := by
  refine ⟨{ st with isUserSpeaking := false, silenceStartTime := some now },
    ?_, rfl, rfl, rfl, rfl⟩
  exact getState_updateEntry h _

/-- Witness for C2's amended theorem at a concrete input. -/
theorem setUserSpeaking_notSpeaking_restamps_witness :
    ∃ st', getState (setUserSpeaking c2ExampleStore "c" false 7) "c" = some st' ∧
      st'.isUserSpeaking = false ∧ st'.silenceStartTime = some 7 ∧
      st'.lastUserAudioTime = none ∧ st'.isAISpeaking = false :=
  setUserSpeaking_notSpeaking_restamps c2ExampleStore "c"
    { freshConnState "c" 1 2 0 with silenceStartTime := some 5 } 7 rfl

/-- Claim C3, counterexample.  On the one-byte buffer `[1]` — whose 16-bit
interpretation has an odd-length tail — `calculateRMS` does not return `0`:
the final `readInt16LE` is out of bounds and throws. -/
theorem calculateRMS_oddLength_counterexample :
    calculateRMS [1] = Except.error RMSError.outOfRange ∧
    calculateRMS [1] ≠ Except.ok 0 := by
  refine ⟨rfl, ?_⟩
  intro hcontra
  rw [show calculateRMS [1] = Except.error RMSError.outOfRange from rfl] at hcontra
  exact Except.noConfusion hcontra

/-- Claim C3, amended: `calculateRMS` returns `0` on the empty buffer, but
on every odd-length buffer it throws (`ERR_OUT_OF_RANGE`) instead of
returning `0`; `processAudioChunk` catches that error and returns the
byte-activity fallback classification, so the chunk-classification entry
point never propagates an error. -/
theorem audioProcessor_degraded_values :
    calculateRMS [] = Except.ok 0 ∧
    (∀ b : List Nat, b.length % 2 = 1 →
      calculateRMS b = Except.error RMSError.outOfRange) ∧
    (∀ (b : List Nat) (thr : ℚ), b.length % 2 = 1 →
      processAudioChunk b thr = byteActivityFallback b thr) := by
  refine ⟨rfl, ?_, ?_⟩
  · intro b hodd
    exact calculateRMS_odd hodd
  · intro b thr hodd
    exact processAudioChunk_odd hodd thr

/-- Witness for C3's amended theorem at a concrete input. -/
theorem audioProcessor_degraded_values_witness :
    calculateRMS [7] = Except.error RMSError.outOfRange ∧
    processAudioChunk [7] silenceThresholdSq = byteActivityFallback [7] silenceThresholdSq :=
  ⟨audioProcessor_degraded_values.2.1 [7] (by decide),
   audioProcessor_degraded_values.2.2 [7] silenceThresholdSq (by decide)⟩

/-- Claim C8, confirmed: for every connection with an existing entry,
`abortAIResponse` twice in a row yields the same store as once, the second
call performs no abort actions (no-op on no live operations), and after the
first call `isAISpeaking` is false, the pending text is empty and both
cancellation handles are cleared. -/
theorem abortAIResponse_idempotent (s : Store) (id : String) (st : ConnState)
    (h : getState s id = some st) :
    (abortAIResponse (abortAIResponse s id).1 id).1 = (abortAIResponse s id).1 ∧
    (abortAIResponse (abortAIResponse s id).1 id).2 = [] ∧
    ∃ st1, getState (abortAIResponse s id).1 id = some st1 ∧
      st1.isAISpeaking = false ∧ st1.textBuffer = "" ∧
      st1.elevenlabsAbortController = none ∧ st1.openaiAbortController = none := by
  refine ⟨?_, ?_, ?_⟩
  · simp [abortAIResponse, h, getState_mapSet_self, mapSet_mapSet]
  · simp [abortAIResponse, h, getState_mapSet_self]
  · refine ⟨{ st with
        elevenlabsAbortController := none
        openaiAbortController := none
        isAISpeaking := false
        textBuffer := "" }, ?_, rfl, rfl, rfl, rfl⟩
    simp [abortAIResponse, h, getState_mapSet_self]

/-- Witness for C8 at a concrete input (both handles live, agent speaking,
text pending). -/
theorem abortAIResponse_idempotent_witness :
    (abortAIResponse (abortAIResponse c1ExampleStore "c").1 "c").1
      = (abortAIResponse c1ExampleStore "c").1 ∧
    (abortAIResponse (abortAIResponse c1ExampleStore "c").1 "c").2 = [] ∧
    ∃ st1, getState (abortAIResponse c1ExampleStore "c").1 "c" = some st1 ∧
      st1.isAISpeaking = false ∧ st1.textBuffer = "" ∧
      st1.elevenlabsAbortController = none ∧ st1.openaiAbortController = none :=
  abortAIResponse_idempotent c1ExampleStore "c" c1ExampleState rfl

/-- Claim C9, confirmed: starting from an entry with an empty audio
buffer, the buffer length never exceeds the capacity (100) after any
number of insertions, and after `N > 100` insertions the buffer holds
exactly the 100 most recent frames in insertion order (oldest dropped). -/
theorem audioBuffer_bounded (s : Store) (id : String) (st : ConnState)
    (chunks : List (List Nat)) (h : getState s id = some st)
    (hb : st.audioBuffer = []) :
    (∀ n : Nat, ∃ stn, getState (insertChunks s id (chunks.take n)) id = some stn ∧
        stn.audioBuffer.length ≤ 100) ∧
    (chunks.length > 100 →
      ∃ st', getState (insertChunks s id chunks) id = some st' ∧
        st'.audioBuffer = chunks.drop (chunks.length - 100) ∧
        st'.audioBuffer.length = 100) := by
  have key : ∀ L : List (List Nat),
      getState (insertChunks s id L) id =
        some { st with audioBuffer := L.drop (L.length - 100) } := by
    intro L
    have hfold := getState_insertChunks h L
    rw [hb, foldl_bufPush_drop L [] (by simp)] at hfold
    simpa using hfold
  constructor
  · intro n
    refine ⟨_, key (chunks.take n), ?_⟩
    simp only [List.length_drop]
    omega
  · intro hlen
    refine ⟨_, key chunks, rfl, ?_⟩
    simp only [List.length_drop]
    omega

/-- Witness for C9: 101 distinct frames into a fresh entry leave exactly
the 100 most recent. -/
theorem audioBuffer_bounded_witness :
    ∃ st', getState (insertChunks (initState [] "c" 1 2 0) "c" numberedChunks) "c"
        = some st' ∧
      st'.audioBuffer = numberedChunks.drop (numberedChunks.length - 100) ∧
      st'.audioBuffer.length = 100 :=
  (audioBuffer_bounded (initState [] "c" 1 2 0) "c" (freshConnState "c" 1 2 0)
    numberedChunks rfl rfl).2 (by decide)

/-- Claim C4, confirmed: when the model-session open times out
(`noOpenWithin10s` → `Error('Connection timeout')`), connection setup
fails with the connection-timeout error and the `StateStore` entry created
before the session open is removed by the setup-failure cleanup — no entry
for the connection id remains. -/
theorem sessionTimeout_leaves_no_state (s : Store) (userId consultantId now : Nat)
    (voice sid : String)
    (h : getState s (mkConnectionId userId consultantId now) = none) :
    (handleConnection s true (.success userId consultantId) (some ⟨some voice⟩)
        .noOpenWithin10s sid now).2 = .setupFailed .connectionTimeout ∧
    getState (handleConnection s true (.success userId consultantId) (some ⟨some voice⟩)
        .noOpenWithin10s sid now).1 (mkConnectionId userId consultantId now) = none := by
  have key : handleConnection s true (.success userId consultantId) (some ⟨some voice⟩)
      .noOpenWithin10s sid now = (s, .setupFailed .connectionTimeout) := by
    simp [handleConnection, createSession, cleanupConnection, initState,
      abortAIResponse, removeConn, getState_mapSet_self, mapSet_mapSet,
      freshConnState, mapDelete_mapSet_of_none h]
  rw [key]
  exact ⟨rfl, h⟩

/-- Witness for C4 at a concrete input (empty store, user 1, consultant 2,
time 3). -/
theorem sessionTimeout_leaves_no_state_witness :
    (handleConnection [] true (.success 1 2) (some ⟨some "voiceA"⟩)
        .noOpenWithin10s "sid" 3).2 = .setupFailed .connectionTimeout ∧
    getState (handleConnection [] true (.success 1 2) (some ⟨some "voiceA"⟩)
        .noOpenWithin10s "sid" 3).1 (mkConnectionId 1 2 3) = none :=
  sessionTimeout_leaves_no_state [] 1 2 3 "voiceA" "sid" rfl

/-- Claim C5, counterexample.  A cancellation triggered *during* the stream
(after the first chunk) stops chunk emission, but no `stream_aborted` event
is emitted — the `stream_aborted` emission sits in the `catch` branch,
which only runs when the awaited request itself rejects with
`ERR_CANCELED`, i.e. when the abort precedes the response. -/
theorem ttsAbort_midstream_counterexample :
    (streamTextToSpeech true "hello" "voiceA"
        (.response [[1], [2]] (.abortedDuring 1))).events
      = [TTSEvent.audioChunk [1]] ∧
    TTSEvent.streamAborted ∉
      (streamTextToSpeech true "hello" "voiceA"
        (.response [[1], [2]] (.abortedDuring 1))).events := by
  decide

/-- Claim C5, amended: if the cancellation token is triggered before or
during the stream, no audio chunk is emitted after the trigger (emission
stops at the next chunk boundary), no `error` event is emitted, and the
abort is never surfaced as an error to the caller (the call returns
normally).  A `stream_aborted` event is emitted exactly when the abort is
detected at the awaited request (`ERR_CANCELED`); an abort during the
stream ends emission silently, with no terminal event. -/
theorem ttsAbort_stops_chunks_no_error (text voiceId : String)
    (chunks : List (List Nat)) (k : Nat)
    (hv : ¬ voiceId = "") (ht : isBlank text = false) :
    (streamTextToSpeech true text voiceId (.response chunks (.abortedDuring k))).events
      = (chunks.take k).map TTSEvent.audioChunk ∧
    (streamTextToSpeech true text voiceId (.response chunks (.abortedDuring k))).result
      = .returned ∧
    TTSEvent.errorEvent ∉
      (streamTextToSpeech true text voiceId (.response chunks (.abortedDuring k))).events ∧
    TTSEvent.streamEnd ∉
      (streamTextToSpeech true text voiceId (.response chunks (.abortedDuring k))).events ∧
    (streamTextToSpeech true text voiceId .abortedBeforeResponse).events
      = [TTSEvent.streamAborted] ∧
    (streamTextToSpeech true text voiceId .abortedBeforeResponse).result = .returned := by
  have hev : (streamTextToSpeech true text voiceId
      (.response chunks (.abortedDuring k))).events
      = (chunks.take k).map TTSEvent.audioChunk := by
    simp [streamTextToSpeech, hv, ht]
  refine ⟨hev, ?_, ?_, ?_, ?_, ?_⟩
  · simp [streamTextToSpeech, hv, ht]
  · rw [hev]
    intro hmem
    obtain ⟨c, -, hc⟩ := List.mem_map.mp hmem
    exact TTSEvent.noConfusion hc
  · rw [hev]
    intro hmem
    obtain ⟨c, -, hc⟩ := List.mem_map.mp hmem
    exact TTSEvent.noConfusion hc
  · simp [streamTextToSpeech, hv, ht]
  · simp [streamTextToSpeech, hv, ht]

/-- Witness for C5's amended theorem at a concrete input: two remote
chunks, abort after the first. -/
theorem ttsAbort_stops_chunks_no_error_witness :
    (streamTextToSpeech true "hi" "v" (.response [[1], [2]] (.abortedDuring 1))).events
      = [TTSEvent.audioChunk [1]] ∧
    (streamTextToSpeech true "hi" "v" (.response [[1], [2]] (.abortedDuring 1))).result
      = .returned ∧
    TTSEvent.errorEvent ∉
      (streamTextToSpeech true "hi" "v" (.response [[1], [2]] (.abortedDuring 1))).events ∧
    TTSEvent.streamEnd ∉
      (streamTextToSpeech true "hi" "v" (.response [[1], [2]] (.abortedDuring 1))).events ∧
    (streamTextToSpeech true "hi" "v" .abortedBeforeResponse).events
      = [TTSEvent.streamAborted] ∧
    (streamTextToSpeech true "hi" "v" .abortedBeforeResponse).result = .returned :=
  ttsAbort_stops_chunks_no_error "hi" "v" [[1], [2]] 1 (by decide) (by decide)

/-- Claim C6, counterexample.  Calling `streamTextToSpeech` itself with
whitespace-only text does raise an error to its caller: it rejects with
`Error('Text is required')` (though before any network call). -/
theorem ttsEmptyText_counterexample :
    (streamTextToSpeech true " " "voiceA" (.response [] .completed)).result
      = .threw .textRequired ∧
    (streamTextToSpeech true " " "voiceA" (.response [] .completed)).networkCalled
      = false := by
  decide

/-- Claim C6, amended: a synthesis request with empty/whitespace-only text
makes no network call and emits no audio chunks; the incremental entry
point `streamTextDelta` returns silently (a skip, no error), while
`streamTextToSpeech` rejects with the text-required error to its caller —
the orchestrator filters out empty fragments before invoking synthesis, so
that rejection is what a direct caller would see. -/
theorem ttsEmptyText_skip (apiKeyConfigured : Bool) (text voiceId : String)
    (outcome : RequestOutcome) (ht : isBlank text = true) (hv : ¬ voiceId = "") :
    streamTextDelta apiKeyConfigured text voiceId outcome
      = { events := [], networkCalled := false, result := .returned } ∧
    streamTextToSpeech true text voiceId outcome
      = { events := [], networkCalled := false, result := .threw .textRequired } := by
  constructor
  · simp [streamTextDelta, ht]
  · simp [streamTextToSpeech, ht, hv]

/-- Witness for C6's amended theorem at a concrete input (empty string). -/
theorem ttsEmptyText_skip_witness :
    streamTextDelta true "" "v" (.response [] .completed)
      = { events := [], networkCalled := false, result := .returned } ∧
    streamTextToSpeech true "" "v" (.response [] .completed)
      = { events := [], networkCalled := false, result := .threw .textRequired } :=
  ttsEmptyText_skip true "" "v" (.response [] .completed) (by decide) (by decide)

/-- Claim C1, confirmed: for a connection with an entry and an open model
session (`Active`), (a) no `handleAudioChunk` step ends with
`isUserSpeaking` and `isAISpeaking` both true, and (b) whenever the step
observes `shouldBargeIn` (the frame classifies as non-silent while the
agent is speaking), then within that same step the `response.cancel` is
sent to the model session, the `barge_in` notification is sent to the
client, and the resulting entry reflects `abortAIResponse`: agent flag
false, pending text cleared, both cancellation handles cleared. -/
theorem bargein_cancels_agent_output (s : Store) (id : String) (st : ConnState)
    (chunk : List Nat) (now : Nat) (h : getState s id = some st) :
    (∀ st', getState (handleAudioChunk s id chunk true now).1 id = some st' →
      ¬(st'.isUserSpeaking = true ∧ st'.isAISpeaking = true)) ∧
    ((processAudioChunk chunk silenceThresholdSq).isSilent = false →
      st.isAISpeaking = true →
      ServerOut.cancelModelResponse ∈ (handleAudioChunk s id chunk true now).2 ∧
      ServerOut.bargeInMsg ∈ (handleAudioChunk s id chunk true now).2 ∧
      ∃ st', getState (handleAudioChunk s id chunk true now).1 id = some st' ∧
        st'.isAISpeaking = false ∧ st'.textBuffer = "" ∧
        st'.elevenlabsAbortController = none ∧ st'.openaiAbortController = none) := by
  constructor
  · intro st' hst'
    cases hsil : (processAudioChunk chunk silenceThresholdSq).isSilent with
    | true =>
      have hget : getState (handleAudioChunk s id chunk true now).1 id
          = some { st with
              audioBuffer := bufPush st.audioBuffer chunk
              isUserSpeaking := false
              silenceStartTime := some now } := by
        simp [handleAudioChunk, h, addAudioChunk, setUserSpeaking, updateEntry,
          getState_mapSet_self, mapSet_mapSet, shouldBargeIn, isSilenceDetected,
          hsil, silenceDurationMs, Nat.sub_self,
          show decide ((1000 : Nat) ≤ 0) = false from rfl]
      rw [hget] at hst'
      have heq := Option.some.inj hst'
      subst heq
      simp
    | false =>
      cases hai : st.isAISpeaking with
      | false =>
        have hget : getState (handleAudioChunk s id chunk true now).1 id
            = some { st with
                audioBuffer := bufPush st.audioBuffer chunk
                isUserSpeaking := true
                lastUserAudioTime := some now
                silenceStartTime := none } := by
          simp [handleAudioChunk, h, addAudioChunk, setUserSpeaking, updateEntry,
            getState_mapSet_self, mapSet_mapSet, shouldBargeIn, isSilenceDetected,
            hsil, hai]
        rw [hget] at hst'
        have heq := Option.some.inj hst'
        subst heq
        simp [hai]
      | true =>
        have hget : getState (handleAudioChunk s id chunk true now).1 id
            = some { st with
                audioBuffer := bufPush st.audioBuffer chunk
                isUserSpeaking := true
                lastUserAudioTime := some now
                silenceStartTime := none
                elevenlabsAbortController := none
                openaiAbortController := none
                isAISpeaking := false
                textBuffer := "" } := by
          simp [handleAudioChunk, h, addAudioChunk, setUserSpeaking, updateEntry,
            getState_mapSet_self, mapSet_mapSet, shouldBargeIn, abortAIResponse,
            isSilenceDetected, hsil, hai]
        rw [hget] at hst'
        have heq := Option.some.inj hst'
        subst heq
        simp
  · intro hsil hai
    have hget : getState (handleAudioChunk s id chunk true now).1 id
        = some { st with
            audioBuffer := bufPush st.audioBuffer chunk
            isUserSpeaking := true
            lastUserAudioTime := some now
            silenceStartTime := none
            elevenlabsAbortController := none
            openaiAbortController := none
            isAISpeaking := false
            textBuffer := "" } := by
      simp [handleAudioChunk, h, addAudioChunk, setUserSpeaking, updateEntry,
        getState_mapSet_self, mapSet_mapSet, shouldBargeIn, abortAIResponse,
        isSilenceDetected, hsil, hai]
    refine ⟨?_, ?_, ⟨_, hget, rfl, rfl, rfl, rfl⟩⟩
    · simp [handleAudioChunk, h, addAudioChunk, setUserSpeaking, updateEntry,
        getState_mapSet_self, mapSet_mapSet, shouldBargeIn, abortAIResponse,
        isSilenceDetected, hsil, hai, actionOut]
    · simp [handleAudioChunk, h, addAudioChunk, setUserSpeaking, updateEntry,
        getState_mapSet_self, mapSet_mapSet, shouldBargeIn, abortAIResponse,
        isSilenceDetected, hsil, hai, actionOut]

/-- The loud fixture frame classifies as non-silent: its mean square is
`1/4`, far above the squared threshold `1/40000`. -/
theorem loudChunk_not_silent :
    (processAudioChunk loudChunk silenceThresholdSq).isSilent = false := by
  have hrms : calculateRMS [0, 64] = Except.ok (1 / 4) := by
    simp [calculateRMS, pcm16Samples, toInt16]
    norm_num
  simp [processAudioChunk, loudChunk, hrms]
  rw [silenceThresholdSq]
  norm_num

/-- Witness for C1 at a concrete input: a loud frame (normalized square
`1/4`) arrives while the agent is speaking with both handles live. -/
theorem bargein_cancels_agent_output_witness :
    ServerOut.cancelModelResponse ∈ (handleAudioChunk c1ExampleStore "c" loudChunk true 3).2 ∧
    ServerOut.bargeInMsg ∈ (handleAudioChunk c1ExampleStore "c" loudChunk true 3).2 ∧
    ∃ st', getState (handleAudioChunk c1ExampleStore "c" loudChunk true 3).1 "c" = some st' ∧
      st'.isAISpeaking = false ∧ st'.textBuffer = "" ∧
      st'.elevenlabsAbortController = none ∧ st'.openaiAbortController = none :=
  (bargein_cancels_agent_output c1ExampleStore "c" c1ExampleState loudChunk 3 rfl).2
    loudChunk_not_silent rfl
